import Mathlib

/-
Verification of the novaurl backend (src/backend/server.py) against its
specification. The Python code is shallowly embedded: the Mongo collections
become lists carried in an explicit DB state, outbound HTTP calls become
explicit outcome parameters, and the FastAPI handlers become pure functions
over that state. Machine-generated values (uuid, timestamp, random short
code) are passed in as parameters.
-/

namespace NovaUrl

/-- Geolocation payload returned by the ip-api.com lookup, as consumed by
send_discord_webhook: a dict read with .get, so every field is optional. -/
structure Geo where
  city : Option String
  regionName : Option String
  country : Option String
  isp : Option String
deriving DecidableEq

/-- Model of the URLRecord pydantic model (server.py lines 38-45).
created_at is an abstract instant. -/
structure URLRecord where
  id : String
  short_code : String
  redirect_url : String
  discord_webhook : String
  custom_html : Option String
  created_at : Nat
  click_count : Nat
deriving DecidableEq

/-- Model of the VisitorData pydantic model (server.py lines 47-53). -/
structure VisitorData where
  id : String
  short_code : String
  ip_address : String
  user_agent : Option String
  timestamp : Nat
  geolocation : Option Geo
deriving DecidableEq

/-- The two Mongo collections db.urls and db.visitors, in store-native
(insertion) order. -/
structure DB where
  urls : List URLRecord
  visitors : List VisitorData
deriving DecidableEq

/-- The request metadata consulted by handle_short_url: transport peer
address (request.client.host) and the three headers it reads. A header
value of none models the header being absent from the request. -/
structure Request where
  client_host : String
  x_forwarded_for : Option String
  x_real_ip : Option String
  user_agent : Option String
deriving DecidableEq

/-- Outcome of the outbound geolocation HTTP GET in get_ip_geolocation:
either an exception was raised somewhere in the try block (network error,
timeout, malformed JSON body), or a response arrived with a status code
and, when parseable, a payload. -/
inductive GeoOutcome where
  | exn : GeoOutcome
  | resp : Nat → Geo → GeoOutcome
deriving DecidableEq

/-- Outcome of the outbound webhook POST in send_discord_webhook. -/
inductive WebhookOutcome where
  | exn : WebhookOutcome
  | resp : Nat → WebhookOutcome
deriving DecidableEq

/-- The embed message built by send_discord_webhook (server.py lines
74-114): title plus the values of its labeled fields. The location and
ISP values are present exactly when a geolocation payload was attached. -/
structure EmbedMsg where
  title : String
  shortUrlValue : String
  ipValue : String
  userAgentValue : String
  locationValue : Option String
  ispValue : Option String
deriving DecidableEq

/-- Result of the resolve path: HTTPException(404) or an HTMLResponse. -/
inductive ResolveResult where
  | httpError : Nat → String → ResolveResult
  | html : Nat → String → ResolveResult
deriving DecidableEq

/-- Everything observable about one run of handle_short_url: the new store
state, the notification attempt (embed message and whether a delivery
error was logged; none when the 404 path returns early), and the HTTP
result. -/
structure ResolveOutput where
  db : DB
  notification : Option (EmbedMsg × Bool)
  result : ResolveResult
deriving DecidableEq

/-- A multipart file part as seen by create_url: UploadFile.filename and
the decoded text content. An empty filename models a part whose filename
attribute is falsy. -/
structure UploadedFile where
  filename : String
  content : String
deriving DecidableEq

/-- Result of create_url: HTTPException(400) or the created record. -/
inductive CreateResult where
  | httpError : Nat → String → CreateResult
  | created : URLRecord → CreateResult
deriving DecidableEq

/- ---------------------------------------------------------------------
String machinery for the Python operations str.replace, str.endswith,
str.split / strip used by the handlers.
--------------------------------------------------------------------- -/

/-- Leftmost occurrence search: splitFirst pat s = some (a, b) when
s = a ++ pat ++ b and this is the leftmost match; none when pat does not
occur in s. This is the scanning step of Python str.replace. -/
def splitFirst (pat : List Char) : List Char → Option (List Char × List Char)
  | [] => if pat.isPrefixOf ([] : List Char) then some ([], []) else none
  | c :: rest =>
    if pat.isPrefixOf (c :: rest) then some ([], (c :: rest).drop pat.length)
    else (splitFirst pat rest).map (fun p => (c :: p.1, p.2))

theorem splitFirst_eq_some (pat : List Char) :
    ∀ (s a b : List Char), splitFirst pat s = some (a, b) → s = a ++ pat ++ b := by
  intro s
  induction s with
  | nil =>
    intro a b h
    simp only [splitFirst] at h
    by_cases hp : pat.isPrefixOf ([] : List Char)
    · rw [if_pos hp] at h
      have hpe : pat = [] := by
        have := (List.isPrefixOf_iff_prefix).mp hp
        exact List.prefix_nil.mp this
      cases h
      simp [hpe]
    · rw [if_neg hp] at h
      cases h
  | cons c rest ih =>
    intro a b h
    simp only [splitFirst] at h
    by_cases hp : pat.isPrefixOf (c :: rest)
    · rw [if_pos hp] at h
      have hpre : pat <+: c :: rest := (List.isPrefixOf_iff_prefix).mp hp
      obtain ⟨t, ht⟩ := hpre
      have hdrop : (c :: rest).drop pat.length = t := by
        rw [← ht]
        exact List.drop_left pat t
      cases h
      rw [hdrop, ← ht]
      simp
    · rw [if_neg hp] at h
      rw [Option.map_eq_some'] at h
      obtain ⟨p, hp1, hp2⟩ := h
      have := ih p.1 p.2 (by rw [hp1])
      cases hp2
      simp [this]

/-- Python str.replace semantics on character lists: repeatedly replace
the leftmost occurrence of pat by repl, continuing after the replaced
segment; every occurrence is replaced, not just the first. -/
def replaceAll (pat repl : List Char) (s : List Char) : List Char :=
  if hp : pat.length = 0 then s
  else
    match hsp : splitFirst pat s with
    | none => s
    | some (a, b) => a ++ repl ++ replaceAll pat repl b
termination_by s.length
decreasing_by
  have hs := splitFirst_eq_some pat s a b hsp
  rw [hs]
  simp only [List.length_append]
  omega

theorem replaceAll_of_none (pat repl s : List Char) (hp : pat.length ≠ 0)
    (h : splitFirst pat s = none) : replaceAll pat repl s = s := by
  rw [replaceAll, dif_neg hp]
  split
  · rfl
  · rename_i a b heq
    rw [h] at heq
    cases heq

theorem replaceAll_of_some (pat repl s a b : List Char) (hp : pat.length ≠ 0)
    (h : splitFirst pat s = some (a, b)) :
    replaceAll pat repl s = a ++ repl ++ replaceAll pat repl b := by
  rw [replaceAll, dif_neg hp]
  split
  · rename_i heq
    rw [h] at heq
    cases heq
  · rename_i a2 b2 heq
    rw [h] at heq
    cases heq
    rfl

/-- Python str.replace lifted to String. -/
def pyReplace (s pat repl : String) : String :=
  String.mk (replaceAll pat.toList repl.toList s.toList)

/-- Python str.endswith as a suffix test on the character lists. -/
def pyEndsWith (s suffixStr : String) : Bool :=
  suffixStr.toList.isSuffixOf s.toList

/- ---------------------------------------------------------------------
The server operations.
--------------------------------------------------------------------- -/

/-- get_ip_geolocation (server.py lines 60-69): GET the lookup service;
on a 200 response return the parsed JSON payload; any raised exception is
caught and logged; every non-200 or failing path falls through to
returning None. -/
def get_ip_geolocation (outcome : GeoOutcome) : Option Geo :=
  match outcome with
  | GeoOutcome.exn => none
  | GeoOutcome.resp status body => if status = 200 then some body else none

/-- The visitor dict assembled at the call site of send_discord_webhook
(server.py lines 249-253), with dict.get-style optional fields. -/
structure VisitorDict where
  ip_address : Option String
  user_agent : Option String
  geolocation : Option Geo
deriving DecidableEq

/-- send_discord_webhook (server.py lines 71-126): build the embed
message and POST it; a non-204 status or a raised exception only logs an
error. Returns the embed together with the logged-error flag. -/
def send_discord_webhook (frontend_domain : String) (webhook_url : String)
    (short_code : String) (visitor_data : VisitorDict)
    (outcome : WebhookOutcome) : EmbedMsg × Bool :=
  let _ := webhook_url
  let embed : EmbedMsg :=
    { title := "New URL Visit"
      shortUrlValue := "```" ++ frontend_domain ++ "/" ++ short_code ++ "```"
      ipValue := visitor_data.ip_address.getD "Unknown"
      userAgentValue :=
        if (visitor_data.user_agent.getD "").length > 100 then
          (visitor_data.user_agent.getD "Unknown").take 100 ++ "..."
        else
          visitor_data.user_agent.getD "Unknown"
      locationValue := visitor_data.geolocation.map (fun geo =>
        geo.city.getD "Unknown" ++ ", " ++ geo.regionName.getD "Unknown"
          ++ ", " ++ geo.country.getD "Unknown")
      ispValue := visitor_data.geolocation.map (fun geo => geo.isp.getD "Unknown") }
  let errorLogged : Bool :=
    match outcome with
    | WebhookOutcome.exn => true
    | WebhookOutcome.resp status => status != 204
  (embed, errorLogged)

/-- The script spliced into custom markup (server.py line 261), without
the trailing body-close marker that the replacement re-inserts. -/
def injected_script (redirect_url : String) : String :=
  "<script>setTimeout(() => \x7b window.location.href = \"" ++ redirect_url
    ++ "\"; \x7d, 3000);</script>"

/-- The closing body marker that the replacement targets. -/
def bodyCloseMarker : String := "</body>"

/-- The portion of the default loading page template (server.py lines
266-319) before the window.location.href assignment of the redirect
script. Literal braces are written with hex escapes. -/
def default_html_head : String :=
  "\n"
  ++ "        <!DOCTYPE html>\n"
  ++ "        <html lang=\"en\">\n"
  ++ "        <head>\n"
  ++ "            <meta charset=\"UTF-8\">\n"
  ++ "            <meta name=\"viewport\" content=\"width=device-width, initial-scale=1.0\">\n"
  ++ "            <title>Loading...</title>\n"
  ++ "            <style>\n"
  ++ "                body \x7b\n"
  ++ "                    margin: 0;\n"
  ++ "                    padding: 0;\n"
  ++ "                    background: white;\n"
  ++ "                    display: flex;\n"
  ++ "                    justify-content: center;\n"
  ++ "                    align-items: center;\n"
  ++ "                    height: 100vh;\n"
  ++ "                    font-family: -apple-system, BlinkMacSystemFont, \x27Segoe UI\x27, Roboto, sans-serif;\n"
  ++ "                \x7d\n"
  ++ "                .loading \x7b\n"
  ++ "                    text-align: center;\n"
  ++ "                \x7d\n"
  ++ "                .spinner \x7b\n"
  ++ "                    border: 4px solid #f3f3f3;\n"
  ++ "                    border-top: 4px solid #007bff;\n"
  ++ "                    border-radius: 50%;\n"
  ++ "                    width: 40px;\n"
  ++ "                    height: 40px;\n"
  ++ "                    animation: spin 1s linear infinite;\n"
  ++ "                    margin: 0 auto 20px;\n"
  ++ "                \x7d\n"
  ++ "                @keyframes spin \x7b\n"
  ++ "                    0% \x7b transform: rotate(0deg); \x7d\n"
  ++ "                    100% \x7b transform: rotate(360deg); \x7d\n"
  ++ "                \x7d\n"
  ++ "                h1 \x7b\n"
  ++ "                    color: #333;\n"
  ++ "                    font-size: 24px;\n"
  ++ "                    margin: 0;\n"
  ++ "                \x7d\n"
  ++ "            </style>\n"
  ++ "        </head>\n"
  ++ "        <body>\n"
  ++ "            <div class=\"loading\">\n"
  ++ "                <div class=\"spinner\"></div>\n"
  ++ "                <h1>Loading...</h1>\n"
  ++ "            </div>\n"
  ++ "            <script>\n"
  ++ "                setTimeout(() => \x7b\n"
  ++ "                    "

/-- The opening of the redirect assignment on the default page, completed
by the interpolated destination URL. -/
def locationAssign : String := "window.location.href = \""

/-- The redirect assignment tail and the timer argument of the default
page: everything of the template between the interpolated URL and the
closing script tag, carrying the 3000 millisecond delay. -/
def default_html_delay_tail : String := "\";\n                \x7d, 3000);"

/-- The remainder of the default page template after the timer. -/
def default_html_close : String :=
  "\n            </script>\n        </body>\n        </html>\n        "

/-- The default loading page (server.py lines 266-319), an f-string with
one interpolation of the destination URL. -/
def default_html (redirect_url : String) : String :=
  default_html_head ++ locationAssign ++ redirect_url
    ++ default_html_delay_tail ++ default_html_close

/-- The rendering step of handle_short_url (server.py lines 256-320):
a truthy custom_html gets the timed redirect spliced before every
closing body marker; otherwise the default loading page is served. -/
def renderPage (url_record : URLRecord) : String :=
  if url_record.custom_html.getD "" ≠ "" then
    pyReplace (url_record.custom_html.getD "") bodyCloseMarker
      (injected_script url_record.redirect_url ++ bodyCloseMarker)
  else
    default_html url_record.redirect_url

/-- db.urls.update_one with a click_count $inc filter-matched on
short_code (server.py lines 240-243): Mongo update_one mutates only the
first matching document in store order. -/
def update_one_inc : List URLRecord → String → List URLRecord
  | [], _ => []
  | r :: rs, code =>
    if r.short_code == code then
      { r with click_count := r.click_count + 1 } :: rs
    else
      r :: update_one_inc rs code

/-- handle_short_url (server.py lines 209-320). The outcomes of the two
outbound HTTP calls, the fresh visit id and the capture instant are
explicit parameters; frontend_domain is the configured public domain the
notifier interpolates. -/
def handle_short_url (frontend_domain : String) (db : DB) (short_code : String)
    (request : Request) (geoOutcome : GeoOutcome) (webhookOutcome : WebhookOutcome)
    (visit_id : String) (now : Nat) : ResolveOutput :=
  match db.urls.find? (fun r => r.short_code == short_code) with
  | none => ⟨db, none, ResolveResult.httpError 404 "URL not found"⟩
  | some url_record =>
    let client_ip : String :=
      match request.x_forwarded_for with
      | some v => ((v.splitOn ",").headD "").trim
      | none =>
        match request.x_real_ip with
        | some v => v
        | none => request.client_host
    let user_agent : String := request.user_agent.getD ""
    let geo_data : Option Geo := get_ip_geolocation geoOutcome
    let visitor_data : VisitorData :=
      ⟨visit_id, short_code, client_ip, some user_agent, now, geo_data⟩
    let db1 : DB := { db with visitors := db.visitors ++ [visitor_data] }
    let db2 : DB := { db1 with urls := update_one_inc db1.urls short_code }
    let notif : EmbedMsg × Bool :=
      send_discord_webhook frontend_domain url_record.discord_webhook short_code
        ⟨some client_ip, some user_agent, geo_data⟩ webhookOutcome
    ⟨db2, some notif, ResolveResult.html 200 (renderPage url_record)⟩

/-- get_urls (server.py lines 194-198): db.urls.find().to_list(1000)
returns at most the first 1000 documents in store order; each is then
re-validated into a URLRecord unchanged. -/
def get_urls (db : DB) : List URLRecord :=
  db.urls.take 1000

/-- create_url (server.py lines 128-192). The collision-checked random
short code, the fresh record id and the creation instant are parameters;
the creation webhook POST is fire-and-forget and touches no state. A file
part with a falsy (empty) filename fails the truthiness guard on line 144
and is ignored; a non-empty filename not ending in .html raises a 400
before anything is persisted. -/
def create_url (db : DB) (redirect_url discord_webhook : String)
    (custom_html : Option UploadedFile) (short_code new_id : String)
    (now : Nat) : DB × CreateResult :=
  let rejected : Bool :=
    match custom_html with
    | some file => file.filename != "" && !(pyEndsWith file.filename ".html")
    | none => false
  if rejected then
    (db, CreateResult.httpError 400 "Only HTML files are allowed")
  else
    let html_content : Option String :=
      match custom_html with
      | some file => if file.filename != "" then some file.content else none
      | none => none
    let url_record : URLRecord :=
      ⟨new_id, short_code, redirect_url, discord_webhook, html_content, now, 0⟩
    ({ db with urls := db.urls ++ [url_record] }, CreateResult.created url_record)

/- ---------------------------------------------------------------------
Helper lemmas about the store operations.
--------------------------------------------------------------------- -/

theorem find_some_decomp {α : Type} (p : α → Bool) :
    ∀ (l : List α) (x : α), l.find? p = some x →
      ∃ pre post, l = pre ++ x :: post ∧ (∀ y ∈ pre, p y = false) ∧ p x = true := by
  intro l
  induction l with
  | nil =>
    intro x h
    simp [List.find?] at h
  | cons a rest ih =>
    intro x h
    by_cases hpa : p a
    · refine ⟨[], rest, ?_, ?_, ?_⟩
      · have : a = x := by
          rw [List.find?_cons, hpa] at h
          exact Option.some.inj h
        simp [this]
      · intro y hy
        cases hy
      · have : a = x := by
          rw [List.find?_cons, hpa] at h
          exact Option.some.inj h
        rw [← this]
        exact hpa
    · have hpaf : p a = false := Bool.eq_false_iff.mpr hpa
      rw [List.find?_cons, hpaf] at h
      obtain ⟨pre, post, h1, h2, h3⟩ := ih x h
      refine ⟨a :: pre, post, by simp [h1], ?_, h3⟩
      intro y hy
      cases hy with
      | head => exact hpaf
      | tail _ hy2 => exact h2 y hy2

theorem update_one_inc_decomp (code : String) :
    ∀ (pre : List URLRecord) (rec : URLRecord) (post : List URLRecord),
      (∀ y ∈ pre, (y.short_code == code) = false) →
      (rec.short_code == code) = true →
      update_one_inc (pre ++ rec :: post) code
        = pre ++ ({ rec with click_count := rec.click_count + 1 }) :: post := by
  intro pre
  induction pre with
  | nil =>
    intro rec post _ hrec
    simp only [List.nil_append, update_one_inc]
    rw [if_pos hrec]
  | cons y pre ih =>
    intro rec post hpre hrec
    have hy : (y.short_code == code) = false := hpre y (List.mem_cons_self y pre)
    simp only [List.cons_append, update_one_inc]
    rw [if_neg (by simp [hy])]
    have := ih rec post (fun z hz => hpre z (List.mem_cons_of_mem y hz)) hrec
    simp only [List.append_eq]
    rw [this]

/- ---------------------------------------------------------------------
Concrete sample data used by witnesses and counterexamples.
--------------------------------------------------------------------- -/

/-- A stored link without custom markup. -/
def sampleLink : URLRecord :=
  ⟨"id-1", "abc", "https://example.com/target", "https://hooks.example/wh", none, 0, 3⟩

/-- A stored link whose custom markup holds exactly one closing body
marker. -/
def sampleHtmlLink : URLRecord :=
  ⟨"id-2", "cust", "https://example.com/t2", "https://hooks.example/wh2",
    some "<html><body><p>hi</p></body></html>", 0, 0⟩

/-- A store holding the two sample links. -/
def sampleDB : DB := ⟨[sampleLink, sampleHtmlLink], []⟩

/-- A plain request with no proxy headers. -/
def sampleReq : Request := ⟨"9.9.9.9", none, none, some "agent-x"⟩

/-- A sample geolocation payload. -/
def sampleGeo : Geo := ⟨some "Paris", some "IDF", some "France", some "ISP-1"⟩

/-- A stored link whose custom markup holds two closing body markers. -/
def doubleMarkerLink : URLRecord :=
  ⟨"id-3", "dbl", "https://example.com/t3", "https://hooks.example/wh3",
    some "</body></body>", 0, 0⟩

/-- A store holding only the double-marker link. -/
def doubleMarkerDB : DB := ⟨[doubleMarkerLink], []⟩

/-- A store holding 1001 links with pairwise distinct short codes. -/
def bigDB : DB :=
  ⟨(List.range 1001).map (fun i =>
      ⟨toString i, toString i, "https://example.com", "https://hooks.example/wh", none, 0, 0⟩),
    []⟩

/- ---------------------------------------------------------------------
Small String lemmas used below.
--------------------------------------------------------------------- -/

theorem string_toList_append (a b : String) : (a ++ b).toList = a.toList ++ b.toList := rfl

theorem string_toList_mk (l : List Char) : (String.mk l).toList = l := rfl

/- ---------------------------------------------------------------------
Claim theorems.
--------------------------------------------------------------------- -/

/-- C1: resolving an existing short code appends exactly one Visit row,
carrying that code, the effective origin address, the client agent and
the geolocation result, and rewrites the url list with exactly that
record incremented by one; this holds for every geolocation outcome and
every webhook outcome. -/
theorem C1_resolve_one_visit_one_increment
    (frontend_domain : String) (db : DB) (short_code : String) (request : Request)
    (geoOutcome : GeoOutcome) (webhookOutcome : WebhookOutcome)
    (visit_id : String) (now : Nat) (rec : URLRecord)
    (h : db.urls.find? (fun r => r.short_code == short_code) = some rec) :
    ∃ pre post,
      db.urls = pre ++ rec :: post ∧
      (handle_short_url frontend_domain db short_code request geoOutcome
          webhookOutcome visit_id now).db.visitors
        = db.visitors ++
          [⟨visit_id, short_code,
            (match request.x_forwarded_for with
             | some v => ((v.splitOn ",").headD "").trim
             | none =>
               match request.x_real_ip with
               | some v => v
               | none => request.client_host),
            some (request.user_agent.getD ""), now, get_ip_geolocation geoOutcome⟩] ∧
      (handle_short_url frontend_domain db short_code request geoOutcome
          webhookOutcome visit_id now).db.urls
        = pre ++ ({ rec with click_count := rec.click_count + 1 }) :: post := by
  obtain ⟨pre, post, hl, hpre, hp⟩ :=
    find_some_decomp (fun r => r.short_code == short_code) db.urls rec h
  refine ⟨pre, post, hl, ?_, ?_⟩
  · simp only [handle_short_url, h]
  · simp only [handle_short_url, h]
    rw [hl]
    exact update_one_inc_decomp short_code pre rec post hpre hp

/-- C1 witness: resolving the sample code abc with a failing geolocation
lookup and a failing webhook still appends one Visit row and increments
the matching record. -/
theorem C1_witness :
    (sampleDB.urls.find? (fun r => r.short_code == "abc") = some sampleLink) ∧
    ∃ pre post,
      sampleDB.urls = pre ++ sampleLink :: post ∧
      (handle_short_url "localhost:3000" sampleDB "abc" sampleReq GeoOutcome.exn
          WebhookOutcome.exn "v2" 11).db.visitors
        = sampleDB.visitors ++
          [⟨"v2", "abc",
            (match sampleReq.x_forwarded_for with
             | some v => ((v.splitOn ",").headD "").trim
             | none =>
               match sampleReq.x_real_ip with
               | some v => v
               | none => sampleReq.client_host),
            some (sampleReq.user_agent.getD ""), 11, get_ip_geolocation GeoOutcome.exn⟩] ∧
      (handle_short_url "localhost:3000" sampleDB "abc" sampleReq GeoOutcome.exn
          WebhookOutcome.exn "v2" 11).db.urls
        = pre ++ ({ sampleLink with click_count := sampleLink.click_count + 1 }) :: post :=
  ⟨by decide,
    C1_resolve_one_visit_one_increment "localhost:3000" sampleDB "abc" sampleReq
      GeoOutcome.exn WebhookOutcome.exn "v2" 11 sampleLink (by decide)⟩

/-- C6: the Visit row recorded by a successful resolve carries as origin
address the trimmed first comma-separated entry of the forwarded-for
header when that header is present, else the real-ip header value when
present, else the transport peer address. -/
theorem C6_effective_origin_address
    (frontend_domain : String) (db : DB) (short_code : String) (request : Request)
    (geoOutcome : GeoOutcome) (webhookOutcome : WebhookOutcome)
    (visit_id : String) (now : Nat) (rec : URLRecord)
    (h : db.urls.find? (fun r => r.short_code == short_code) = some rec) :
    ∃ visit : VisitorData,
      (handle_short_url frontend_domain db short_code request geoOutcome
          webhookOutcome visit_id now).db.visitors = db.visitors ++ [visit] ∧
      (∀ v, request.x_forwarded_for = some v →
        visit.ip_address = ((v.splitOn ",").headD "").trim) ∧
      (request.x_forwarded_for = none → ∀ v, request.x_real_ip = some v →
        visit.ip_address = v) ∧
      (request.x_forwarded_for = none → request.x_real_ip = none →
        visit.ip_address = request.client_host) := by
  refine ⟨⟨visit_id, short_code,
    (match request.x_forwarded_for with
     | some v => ((v.splitOn ",").headD "").trim
     | none =>
       match request.x_real_ip with
       | some v => v
       | none => request.client_host),
    some (request.user_agent.getD ""), now, get_ip_geolocation geoOutcome⟩,
    ?_, ?_, ?_, ?_⟩
  · simp only [handle_short_url, h]
  · intro v hv
    simp only [hv]
  · intro hf v hr
    simp only [hf, hr]
  · intro hf hr
    simp only [hf, hr]

/-- C6 witness: a request carrying a forwarded-for list resolves to its
trimmed first entry. -/
theorem C6_witness :
    (sampleDB.urls.find? (fun r => r.short_code == "abc") = some sampleLink) ∧
    ∃ visit : VisitorData,
      (handle_short_url "localhost:3000" sampleDB "abc"
          ⟨"1.1.1.1", some " 8.8.8.8 , 4.4.4.4", none, none⟩
          GeoOutcome.exn WebhookOutcome.exn "v3" 12).db.visitors
        = sampleDB.visitors ++ [visit] ∧
      (∀ v, (⟨"1.1.1.1", some " 8.8.8.8 , 4.4.4.4", none, none⟩ : Request).x_forwarded_for = some v →
        visit.ip_address = ((v.splitOn ",").headD "").trim) ∧
      ((⟨"1.1.1.1", some " 8.8.8.8 , 4.4.4.4", none, none⟩ : Request).x_forwarded_for = none →
        ∀ v, (⟨"1.1.1.1", some " 8.8.8.8 , 4.4.4.4", none, none⟩ : Request).x_real_ip = some v →
        visit.ip_address = v) ∧
      ((⟨"1.1.1.1", some " 8.8.8.8 , 4.4.4.4", none, none⟩ : Request).x_forwarded_for = none →
        (⟨"1.1.1.1", some " 8.8.8.8 , 4.4.4.4", none, none⟩ : Request).x_real_ip = none →
        visit.ip_address = "1.1.1.1") :=
  ⟨by decide,
    C6_effective_origin_address "localhost:3000" sampleDB "abc"
      ⟨"1.1.1.1", some " 8.8.8.8 , 4.4.4.4", none, none⟩
      GeoOutcome.exn WebhookOutcome.exn "v3" 12 sampleLink (by decide)⟩

/-- C5 (amended): in the visit notification built by a successful
resolve, the client-agent field value is the agent truncated to 100
characters plus an ellipsis when longer than 100, the agent itself when
present and at most 100 characters, and the empty string when the agent
header is absent, because the resolve handler substitutes an empty
string for a missing header before the notifier runs. -/
theorem C5_user_agent_field_value
    (frontend_domain : String) (db : DB) (short_code : String) (request : Request)
    (geoOutcome : GeoOutcome) (webhookOutcome : WebhookOutcome)
    (visit_id : String) (now : Nat) (rec : URLRecord)
    (h : db.urls.find? (fun r => r.short_code == short_code) = some rec) :
    ∃ (e : EmbedMsg) (flag : Bool),
      (handle_short_url frontend_domain db short_code request geoOutcome
          webhookOutcome visit_id now).notification = some (e, flag) ∧
      (∀ ua, request.user_agent = some ua → ua.length > 100 →
        e.userAgentValue = ua.take 100 ++ "...") ∧
      (∀ ua, request.user_agent = some ua → ua.length ≤ 100 →
        e.userAgentValue = ua) ∧
      (request.user_agent = none → e.userAgentValue = "") := by
  refine ⟨(send_discord_webhook frontend_domain rec.discord_webhook short_code
      ⟨some (match request.x_forwarded_for with
             | some v => ((v.splitOn ",").headD "").trim
             | none =>
               match request.x_real_ip with
               | some v => v
               | none => request.client_host),
        some (request.user_agent.getD ""), get_ip_geolocation geoOutcome⟩
      webhookOutcome).1,
    (send_discord_webhook frontend_domain rec.discord_webhook short_code
      ⟨some (match request.x_forwarded_for with
             | some v => ((v.splitOn ",").headD "").trim
             | none =>
               match request.x_real_ip with
               | some v => v
               | none => request.client_host),
        some (request.user_agent.getD ""), get_ip_geolocation geoOutcome⟩
      webhookOutcome).2, ?_, ?_, ?_, ?_⟩
  · simp only [handle_short_url, h]
  · intro ua hua hlen
    simp only [send_discord_webhook, hua, Option.getD_some]
    rw [if_pos hlen]
  · intro ua hua hlen
    simp only [send_discord_webhook, hua, Option.getD_some]
    rw [if_neg (by omega)]
  · intro hua
    simp only [send_discord_webhook, hua, Option.getD_none]
    rw [if_neg (by simp)]
    exact Option.getD_some

/-- C5 witness: a 101-character agent is truncated with an ellipsis, and
a short agent passes through unchanged. -/
theorem C5_witness :
    (sampleDB.urls.find? (fun r => r.short_code == "abc") = some sampleLink) ∧
    ∃ (e : EmbedMsg) (flag : Bool),
      (handle_short_url "localhost:3000" sampleDB "abc"
          ⟨"9.9.9.9", none, none,
            some (String.mk (List.replicate 101 (Char.ofNat 97)))⟩
          GeoOutcome.exn WebhookOutcome.exn "v4" 13).notification = some (e, flag) ∧
      (∀ ua, (⟨"9.9.9.9", none, none,
            some (String.mk (List.replicate 101 (Char.ofNat 97)))⟩ : Request).user_agent = some ua →
        ua.length > 100 → e.userAgentValue = ua.take 100 ++ "...") ∧
      (∀ ua, (⟨"9.9.9.9", none, none,
            some (String.mk (List.replicate 101 (Char.ofNat 97)))⟩ : Request).user_agent = some ua →
        ua.length ≤ 100 → e.userAgentValue = ua) ∧
      ((⟨"9.9.9.9", none, none,
            some (String.mk (List.replicate 101 (Char.ofNat 97)))⟩ : Request).user_agent = none →
        e.userAgentValue = "") :=
  ⟨by decide,
    C5_user_agent_field_value "localhost:3000" sampleDB "abc"
      ⟨"9.9.9.9", none, none, some (String.mk (List.replicate 101 (Char.ofNat 97)))⟩
      GeoOutcome.exn WebhookOutcome.exn "v4" 13 sampleLink (by decide)⟩

/-- C5 counterexample: with the user-agent header absent from the
request, the notification field value is the empty string, not the
literal Unknown that the claim states. -/
theorem C5_counterexample :
    ((handle_short_url "localhost:3000" sampleDB "abc" ⟨"9.9.9.9", none, none, none⟩
        GeoOutcome.exn WebhookOutcome.exn "v5" 14).notification.map
      (fun p => p.1.userAgentValue)) = some "" ∧ ("" : String) ≠ "Unknown" := by
  constructor
  · rfl
  · decide

/-- C2: resolving a short code absent from the Link Store yields the
404 NotFound outcome, no notification attempt, and leaves the store state
(urls and visitors) untouched. -/
theorem C2_unknown_code_404_store_unchanged
    (frontend_domain : String) (db : DB) (short_code : String) (request : Request)
    (geoOutcome : GeoOutcome) (webhookOutcome : WebhookOutcome)
    (visit_id : String) (now : Nat)
    (h : db.urls.find? (fun r => r.short_code == short_code) = none) :
    handle_short_url frontend_domain db short_code request geoOutcome webhookOutcome
        visit_id now
      = ⟨db, none, ResolveResult.httpError 404 "URL not found"⟩ := by
  simp only [handle_short_url, h]

/-- C2 witness: resolving the unknown code zzz against the sample store. -/
theorem C2_witness :
    (sampleDB.urls.find? (fun r => r.short_code == "zzz") = none) ∧
    handle_short_url "localhost:3000" sampleDB "zzz" sampleReq GeoOutcome.exn
        WebhookOutcome.exn "v1" 7
      = ⟨sampleDB, none, ResolveResult.httpError 404 "URL not found"⟩ :=
  ⟨by decide,
    C2_unknown_code_404_store_unchanged "localhost:3000" sampleDB "zzz" sampleReq
      GeoOutcome.exn WebhookOutcome.exn "v1" 7 (by decide)⟩

/-- C7: the geolocation resolver is a total function of the outbound
call outcome: a 200 response returns its parsed payload, every non-200
status returns the no-data result, a raised exception (network error,
timeout, malformed body) returns the no-data result, and on every
outcome it returns either the looked-up payload or no data, never an
error. -/
theorem C7_geolocation_absorbs_failure :
    (∀ g : Geo, get_ip_geolocation (GeoOutcome.resp 200 g) = some g) ∧
    (∀ (s : Nat) (g : Geo), s ≠ 200 → get_ip_geolocation (GeoOutcome.resp s g) = none) ∧
    (get_ip_geolocation GeoOutcome.exn = none) ∧
    (∀ o : GeoOutcome, get_ip_geolocation o = none ∨
      ∃ g, get_ip_geolocation o = some g ∧ o = GeoOutcome.resp 200 g) := by
  refine ⟨fun g => rfl, ?_, rfl, ?_⟩
  · intro s g hs
    simp [get_ip_geolocation, hs]
  · intro o
    match o with
    | GeoOutcome.exn => exact Or.inl rfl
    | GeoOutcome.resp s g =>
      by_cases hs : s = 200
      · subst hs
        exact Or.inr ⟨g, rfl, rfl⟩
      · exact Or.inl (by simp [get_ip_geolocation, hs])

/-- C7 witness: a 500 response and an exception both evaluate to the
no-data result; a 200 response returns its payload. -/
theorem C7_witness :
    ((500 : Nat) ≠ 200 ∧ get_ip_geolocation (GeoOutcome.resp 500 sampleGeo) = none) ∧
    get_ip_geolocation (GeoOutcome.resp 200 sampleGeo) = some sampleGeo :=
  ⟨⟨by decide, C7_geolocation_absorbs_failure.2.1 500 sampleGeo (by decide)⟩,
    C7_geolocation_absorbs_failure.1 sampleGeo⟩

/-- C10: for one stored Link, the rendered resolve result (status and
body) is the same for any two requests, independently of origin address,
proxy headers, client agent, geolocation outcome, notification outcome,
visit id and instant: it depends only on the stored record. -/
theorem C10_response_independent_of_visitor
    (frontend_domain : String) (db : DB) (short_code : String) (rec : URLRecord)
    (r1 r2 : Request) (g1 g2 : GeoOutcome) (w1 w2 : WebhookOutcome)
    (id1 id2 : String) (t1 t2 : Nat)
    (h : db.urls.find? (fun r => r.short_code == short_code) = some rec) :
    (handle_short_url frontend_domain db short_code r1 g1 w1 id1 t1).result
      = (handle_short_url frontend_domain db short_code r2 g2 w2 id2 t2).result := by
  simp only [handle_short_url, h]

/-- C10 witness: two resolves of the sample link differing in transport
address, forwarded header, agent, geolocation and webhook outcome render
the same result. -/
theorem C10_witness :
    (sampleDB.urls.find? (fun r => r.short_code == "abc") = some sampleLink) ∧
    (handle_short_url "localhost:3000" sampleDB "abc"
        ⟨"1.1.1.1", some "8.8.8.8, 4.4.4.4", none, some "ua-one"⟩
        (GeoOutcome.resp 200 sampleGeo) (WebhookOutcome.resp 204) "va" 1).result
      = (handle_short_url "localhost:3000" sampleDB "abc"
        ⟨"2.2.2.2", none, some "5.5.5.5", none⟩
        GeoOutcome.exn WebhookOutcome.exn "vb" 2).result :=
  ⟨by decide,
    C10_response_independent_of_visitor "localhost:3000" sampleDB "abc" sampleLink
      ⟨"1.1.1.1", some "8.8.8.8, 4.4.4.4", none, some "ua-one"⟩
      ⟨"2.2.2.2", none, some "5.5.5.5", none⟩
      (GeoOutcome.resp 200 sampleGeo) GeoOutcome.exn
      (WebhookOutcome.resp 204) WebhookOutcome.exn "va" "vb" 1 2 (by decide)⟩

/-- C3 (amended): when the stored custom markup contains exactly one
closing body marker (the leftmost scan finds one occurrence and the
remainder holds none), resolving returns the markup otherwise unmodified
with exactly one injected timed-redirect script placed immediately before
that marker, and the script targets the stored destination URL. With
several marker occurrences the replacement injects before each one. -/
theorem C3_single_marker_single_injection
    (frontend_domain : String) (db : DB) (short_code : String) (request : Request)
    (geoOutcome : GeoOutcome) (webhookOutcome : WebhookOutcome)
    (visit_id : String) (now : Nat) (rec : URLRecord) (html : String)
    (a b : List Char)
    (h : db.urls.find? (fun r => r.short_code == short_code) = some rec)
    (hc : rec.custom_html = some html)
    (h1 : splitFirst bodyCloseMarker.toList html.toList = some (a, b))
    (h2 : splitFirst bodyCloseMarker.toList b = none) :
    html.toList = a ++ bodyCloseMarker.toList ++ b ∧
    (handle_short_url frontend_domain db short_code request geoOutcome
        webhookOutcome visit_id now).result
      = ResolveResult.html 200
        (String.mk (a ++ (injected_script rec.redirect_url).toList
          ++ bodyCloseMarker.toList ++ b)) := by
  have hdecomp := splitFirst_eq_some bodyCloseMarker.toList html.toList a b h1
  have hm : bodyCloseMarker.toList.length ≠ 0 := by decide
  refine ⟨hdecomp, ?_⟩
  have hne : html ≠ "" := by
    intro he
    rw [he] at hdecomp
    have : a ++ bodyCloseMarker.toList ++ b = [] := hdecomp.symm
    obtain ⟨h3, h4⟩ := List.append_eq_nil.mp this
    obtain ⟨h5, h6⟩ := List.append_eq_nil.mp h3
    rw [h6] at hm
    exact hm rfl
  have hrp : renderPage rec
      = String.mk (a ++ (injected_script rec.redirect_url).toList
          ++ bodyCloseMarker.toList ++ b) := by
    simp only [renderPage, hc, Option.getD_some]
    rw [if_pos hne]
    simp only [pyReplace, string_toList_append]
    rw [replaceAll_of_some _ _ _ a b hm h1]
    rw [replaceAll_of_none _ _ b hm h2]
    congr 1
    simp [List.append_assoc]
  simp only [handle_short_url, h, hrp]

/-- C3 witness: a markup with a single closing body marker resolves to a
single injection immediately before it. -/
theorem C3_witness :
    (sampleDB.urls.find? (fun r => r.short_code == "cust") = some sampleHtmlLink) ∧
    (sampleHtmlLink.custom_html = some "<html><body><p>hi</p></body></html>") ∧
    (splitFirst bodyCloseMarker.toList
        ("<html><body><p>hi</p></body></html>" : String).toList
      = some (("<html><body><p>hi</p>" : String).toList, ("</html>" : String).toList)) ∧
    (splitFirst bodyCloseMarker.toList (("</html>" : String).toList) = none) ∧
    (("<html><body><p>hi</p></body></html>" : String).toList
      = ("<html><body><p>hi</p>" : String).toList ++ bodyCloseMarker.toList
        ++ ("</html>" : String).toList ∧
    (handle_short_url "localhost:3000" sampleDB "cust" sampleReq GeoOutcome.exn
        WebhookOutcome.exn "v7" 16).result
      = ResolveResult.html 200
        (String.mk (("<html><body><p>hi</p>" : String).toList
          ++ (injected_script sampleHtmlLink.redirect_url).toList
          ++ bodyCloseMarker.toList ++ ("</html>" : String).toList))) :=
  ⟨by decide, by decide, by decide, by decide,
    C3_single_marker_single_injection "localhost:3000" sampleDB "cust" sampleReq
      GeoOutcome.exn WebhookOutcome.exn "v7" 16 sampleHtmlLink
      "<html><body><p>hi</p></body></html>"
      ("<html><body><p>hi</p>" : String).toList ("</html>" : String).toList
      (by decide) (by decide) (by decide) (by decide)⟩

/-- C3 counterexample: a stored markup holding two closing body markers
is not returned with exactly one injected script before a marker; the
replacement splices the script before both occurrences, so no single
decomposition matches the claimed shape. -/
theorem C3_counterexample :
    ¬ ∃ a b : List Char,
      ("</body></body>" : String).toList = a ++ bodyCloseMarker.toList ++ b ∧
      (handle_short_url "localhost:3000" doubleMarkerDB "dbl" sampleReq GeoOutcome.exn
          WebhookOutcome.exn "v8" 17).result
        = ResolveResult.html 200
          (String.mk (a ++ (injected_script "https://example.com/t3").toList
            ++ bodyCloseMarker.toList ++ b)) := by
  rintro ⟨a, b, h1, h2⟩
  have hfind : doubleMarkerDB.urls.find? (fun r => r.short_code == "dbl")
      = some doubleMarkerLink := by decide
  have hm : bodyCloseMarker.toList.length ≠ 0 := by decide
  have e1 : splitFirst bodyCloseMarker.toList ("</body></body>" : String).toList
      = some ([], ("</body>" : String).toList) := by decide
  have e2 : splitFirst bodyCloseMarker.toList (("</body>" : String).toList)
      = some ([], ([] : List Char)) := by decide
  have e3 : splitFirst bodyCloseMarker.toList ([] : List Char) = none := by decide
  have hrp : (renderPage doubleMarkerLink).toList
      = (injected_script "https://example.com/t3").toList ++ bodyCloseMarker.toList
        ++ ((injected_script "https://example.com/t3").toList ++ bodyCloseMarker.toList) := by
    have hcustom : doubleMarkerLink.custom_html = some ("</body></body>" : String) := rfl
    have hurl : doubleMarkerLink.redirect_url = "https://example.com/t3" := rfl
    simp only [renderPage, hcustom, Option.getD_some]
    rw [if_pos (by decide : ("</body></body>" : String) ≠ "")]
    simp only [pyReplace, hurl, string_toList_append, string_toList_mk]
    rw [replaceAll_of_some _ _ _ _ _ hm e1]
    rw [replaceAll_of_some _ _ _ _ _ hm e2]
    rw [replaceAll_of_none _ _ _ hm e3]
    simp [List.append_assoc]
  have hres : (handle_short_url "localhost:3000" doubleMarkerDB "dbl" sampleReq
      GeoOutcome.exn WebhookOutcome.exn "v8" 17).result
      = ResolveResult.html 200 (renderPage doubleMarkerLink) := by
    simp only [handle_short_url, hfind]
  rw [hres] at h2
  injection h2 with hstat hbody
  have hbl : (renderPage doubleMarkerLink).toList
      = a ++ (injected_script "https://example.com/t3").toList
        ++ bodyCloseMarker.toList ++ b :=
    congrArg String.toList hbody
  rw [hrp] at hbl
  have hlen := congrArg List.length hbl
  have hlen1 := congrArg List.length h1
  have hm7 : bodyCloseMarker.toList.length = 7 := by decide
  have h14 : (("</body></body>" : String).toList).length = 14 := by decide
  have hspos : 0 < (injected_script "https://example.com/t3").toList.length := by decide
  simp only [List.length_append] at hlen hlen1
  rw [hm7] at hlen hlen1
  rw [h14] at hlen1
  omega

/-- C9: resolving a Link without custom markup serves the default
loading page, which splits as a fixed head, the redirect assignment
targeting exactly the stored destination URL followed by the 3000
millisecond timer argument, and a fixed close. -/
theorem C9_default_page_redirect
    (frontend_domain : String) (db : DB) (short_code : String) (request : Request)
    (geoOutcome : GeoOutcome) (webhookOutcome : WebhookOutcome)
    (visit_id : String) (now : Nat) (rec : URLRecord)
    (h : db.urls.find? (fun r => r.short_code == short_code) = some rec)
    (hn : rec.custom_html = none) :
    (handle_short_url frontend_domain db short_code request geoOutcome
        webhookOutcome visit_id now).result
      = ResolveResult.html 200 (default_html rec.redirect_url) ∧
    (default_html rec.redirect_url).toList
      = default_html_head.toList
        ++ ("window.location.href = \"" ++ rec.redirect_url
            ++ "\";\n                \x7d, 3000);").toList
        ++ default_html_close.toList := by
  constructor
  · have hrp : renderPage rec = default_html rec.redirect_url := by
      simp only [renderPage, hn, Option.getD_none]
      rw [if_neg (by simp)]
    simp only [handle_short_url, h, hrp]
  · simp only [default_html, string_toList_append, List.append_assoc]
    rfl

/-- C9 witness: the sample markup-free link is served the default page
with its destination spliced into the redirect script. -/
theorem C9_witness :
    (sampleDB.urls.find? (fun r => r.short_code == "abc") = some sampleLink) ∧
    (sampleLink.custom_html = none) ∧
    ((handle_short_url "localhost:3000" sampleDB "abc" sampleReq GeoOutcome.exn
        WebhookOutcome.exn "v9" 18).result
      = ResolveResult.html 200 (default_html sampleLink.redirect_url) ∧
    (default_html sampleLink.redirect_url).toList
      = default_html_head.toList
        ++ ("window.location.href = \"" ++ sampleLink.redirect_url
            ++ "\";\n                \x7d, 3000);").toList
        ++ default_html_close.toList) :=
  ⟨by decide, by decide,
    C9_default_page_redirect "localhost:3000" sampleDB "abc" sampleReq GeoOutcome.exn
      WebhookOutcome.exn "v9" 18 sampleLink (by decide) (by decide)⟩

/-- C8 (amended): a creation request whose file part has a non-empty
filename not ending in .html fails with the 400 ValidationError and
leaves the store untouched; a file part with an empty (falsy) filename
is skipped by the truthiness guard and creation proceeds without markup. -/
theorem C8_nonhtml_upload_rejected
    (db : DB) (redirect_url discord_webhook : String) (file : UploadedFile)
    (short_code new_id : String) (now : Nat)
    (hne : file.filename ≠ "")
    (hnh : pyEndsWith file.filename ".html" = false) :
    create_url db redirect_url discord_webhook (some file) short_code new_id now
      = (db, CreateResult.httpError 400 "Only HTML files are allowed") := by
  have hb : (file.filename != "" && !(pyEndsWith file.filename ".html")) = true := by
    rw [hnh]
    simp [bne_iff_ne, hne]
  simp [create_url, hb]

/-- C8 witness: uploading notes.txt is rejected with a 400 and the
store is returned unchanged. -/
theorem C8_witness :
    (("notes.txt" : String) ≠ "" ∧ pyEndsWith "notes.txt" ".html" = false) ∧
    create_url sampleDB "https://example.com/d" "https://hooks.example/wh"
        (some ⟨"notes.txt", "plain text"⟩) "newc" "nid" 20
      = (sampleDB, CreateResult.httpError 400 "Only HTML files are allowed") :=
  ⟨⟨by decide, by decide⟩,
    C8_nonhtml_upload_rejected sampleDB "https://example.com/d"
      "https://hooks.example/wh" ⟨"notes.txt", "plain text"⟩ "newc" "nid" 20
      (by decide) (by decide)⟩

/-- C8 counterexample: a file part with an empty filename does not end
in .html, yet creation succeeds and persists a Link (with no markup)
instead of failing with a 400. -/
theorem C8_counterexample :
    pyEndsWith "" ".html" = false ∧
    create_url sampleDB "https://example.com/d" "https://hooks.example/wh"
        (some ⟨"", "ignored"⟩) "newc2" "nid2" 21
      = (⟨sampleDB.urls ++
            [⟨"nid2", "newc2", "https://example.com/d", "https://hooks.example/wh",
              none, 21, 0⟩],
          sampleDB.visitors⟩,
        CreateResult.created
          ⟨"nid2", "newc2", "https://example.com/d", "https://hooks.example/wh",
            none, 21, 0⟩) := by
  constructor
  · decide
  · decide

/-- C4: the list operation caps its result at the first 1000 store
documents, so a store holding 1001 Links is not returned in full, against
the stated unbounded contract. -/
theorem C4_list_capped_at_1000 :
    bigDB.urls.length = 1001 ∧ (get_urls bigDB).length = 1000 ∧
    get_urls bigDB ≠ bigDB.urls := by
  have h1 : bigDB.urls.length = 1001 := by
    simp [bigDB]
  have h2 : (get_urls bigDB).length = 1000 := by
    simp only [get_urls]
    rw [List.length_take, h1]
    omega
  refine ⟨h1, h2, ?_⟩
  intro he
  rw [he, h1] at h2
  exact absurd h2 (by decide)

end NovaUrl
